import Mathlib

/-!
Shallow embedding of `src/ai.py` (WormAI): the prompt formatter, the
per-attempt HTTP outcome classification, the retry loop of `query_model`,
the model-fallback loop of `generate_ai_response`, and the `home` endpoint.

Remote behaviour is modelled by an oracle
`net : modelName → formattedPrompt → attemptIndex → CallResult`
describing what each HTTP POST to the Hugging Face inference API returns.
Python `str.strip` and `str.replace(pat, "")` are modelled on `List Char`
with the same left-to-right, non-overlapping semantics.
-/

namespace WormAI

/-- Python `str.strip()`: drop leading and trailing whitespace characters. -/
def trimChars (xs : List Char) : List Char :=
  ((xs.dropWhile Char.isWhitespace).reverse.dropWhile Char.isWhitespace).reverse

/-- Substring containment test (Python `in` on strings), over char lists. -/
def listContains (pat : List Char) : List Char → Bool
  | [] => pat.isEmpty
  | x :: xs => pat.isPrefixOf (x :: xs) || listContains pat xs

/-- Fuel-driven core of `str.replace(pat, "")`: removes non-overlapping
occurrences of `pat`, scanning left to right.  Fuel is the list length,
which suffices because each step consumes at least one character. -/
def stripPatAux (pat : List Char) : Nat → List Char → List Char
  | 0, xs => xs
  | _ + 1, [] => []
  | fuel + 1, x :: xs =>
    if pat.isPrefixOf (x :: xs) then
      stripPatAux pat fuel (xs.drop (pat.length - 1))
    else
      x :: stripPatAux pat fuel xs

/-- Python `s.replace(pat, "")` on char lists (for non-empty `pat`). -/
def stripPat (pat : List Char) (xs : List Char) : List Char :=
  if pat.isEmpty then xs else stripPatAux pat xs.length xs

/-- Python `s.strip()` on `String`. -/
def pyStrip (s : String) : String := String.mk (trimChars s.toList)

/-- Python `s.replace(pat, "")` on `String`. -/
def removeAll (pat : String) (s : String) : String :=
  String.mk (stripPat pat.toList s.toList)

/-- ai.py lines 92–96: `generated_text.strip()`, then removal of
`"<s>"`, `"</s>"`, `"[INST]"`, `"[/INST]"` in that order, then `strip()`. -/
def cleanText (s : String) : String :=
  pyStrip (removeAll "[/INST]" (removeAll "[INST]" (removeAll "</s>" (removeAll "<s>" (pyStrip s)))))

/-- Lower-cased character list of a string (Python `s.lower()`). -/
def lowerChars (s : String) : List Char := s.toList.map Char.toLower

/-- `pat in model_name.lower()` from ai.py lines 62–64. -/
def nameHas (pat : String) (model_name : String) : Bool :=
  listContains pat.toList (lowerChars model_name)

/-- ai.py lines 61–67: per-model prompt formatting inside `query_model`. -/
def format_prompt (prompt model_name : String) : String :=
  if nameHas "mistral" model_name || nameHas "llama" model_name then
    "<s>[INST] " ++ prompt ++ " [/INST]"
  else if nameHas "gemma" model_name then
    "<start_of_turn>user\n" ++ prompt ++ "<end_of_turn>\n<start_of_turn>model\n"
  else
    "User: " ++ prompt ++ "\nAssistant:"

/-- What one HTTP POST to a model endpoint produces.
`http status body`: a response with the given status code; `body` is
`some items` when the JSON body parses to a list (each item carrying its
optional `generated_text` field), and `none` when it is not a list.
`exn`: any raised exception — connection error, timeout, JSON decode or
attribute error — all of which land in the `except` clause of ai.py. -/
inductive CallResult where
  | http (status : Nat) (body : Option (List (Option String)))
  | exn
deriving DecidableEq

/-- The behaviour of one iteration of the retry loop (ai.py lines 80–106):
`success t` means the iteration returns `t` to the caller; `transient`
means the 503 branch runs (`time.sleep(2)` then `continue`); `hard` means
the iteration falls through to the next attempt with no sleep. -/
inductive AttemptOutcome where
  | success (text : String)
  | transient
  | hard
deriving DecidableEq

/-- Classification of one attempt, following the branch structure of
ai.py lines 89–106: status 200 with a non-empty JSON list returns the
cleaned first `generated_text` (defaulting to `""`); status 200 with any
other body falls through; status 503 sleeps and retries; every other
status falls through; every exception is caught and falls through. -/
def classifyAttempt : CallResult → AttemptOutcome
  | .http status body =>
    if status = 200 then
      match body with
      | some (item :: _) => .success (cleanText (item.getD ""))
      | _ => .hard
    else if status = 503 then .transient
    else .hard
  | .exn => .hard

/-- Result of running `query_model`'s retry loop: the returned text
(`none` models Python `None`), the number of HTTP invocations made and
the number of `time.sleep(2)` backoffs taken. -/
structure RunStats where
  result : Option String
  calls : Nat
  sleeps : Nat
deriving DecidableEq

/-- The `for attempt in range(max_retries)` loop of `query_model`
(ai.py lines 80–108), with `script` giving each attempt's outcome.
`i` is the current attempt index, the final argument the remaining
number of iterations. -/
def runAttempts (script : Nat → CallResult) (i : Nat) : Nat → RunStats
  | 0 => ⟨none, 0, 0⟩
  | n + 1 =>
    match classifyAttempt (script i) with
    | .success t => ⟨some t, 1, 0⟩
    | .transient =>
      let s := runAttempts script (i + 1) n
      ⟨s.result, s.calls + 1, s.sleeps + 1⟩
    | .hard =>
      let s := runAttempts script (i + 1) n
      ⟨s.result, s.calls + 1, s.sleeps⟩

/-- ai.py lines 55–108, `query_model(prompt, model_name, max_retries)`:
formats the prompt and runs the bounded retry loop against the oracle.
The Python function also returns `model_name` unchanged; that component
is reconstructed by the caller, so only the text result is carried. -/
def query_model (net : String → String → Nat → CallResult)
    (prompt model_name : String) (max_retries : Nat) : RunStats :=
  runAttempts (net model_name (format_prompt prompt model_name)) 0 max_retries

/-- ai.py lines 44–49: the ordered model list. -/
def MODELS : List String :=
  ["mistralai/Mistral-7B-Instruct-v0.2",
   "meta-llama/Llama-2-7b-chat-hf",
   "google/gemma-2b-it",
   "TinyLlama/TinyLlama-1.1B-Chat-v1.0"]

/-- Result of `generate_ai_response`: the `(response, used_model)` pair
(`none` models the `(None, None)` total-failure return), plus the HTTP
invocation and sleep counts accumulated across all models tried. -/
structure DispatchStats where
  result : Option (String × String)
  calls : Nat
  sleeps : Nat
deriving DecidableEq

/-- The `for model_name in MODELS` loop of `generate_ai_response`
(ai.py lines 110–123).  `if response:` is Python truthiness: `None` and
`""` both advance to the next model. -/
def dispatchLoop (net : String → String → Nat → CallResult)
    (user_input : String) : List String → DispatchStats
  | [] => ⟨none, 0, 0⟩
  | m :: rest =>
    let s := query_model net user_input m 2
    match s.result with
    | some t =>
      if t = "" then
        let d := dispatchLoop net user_input rest
        ⟨d.result, s.calls + d.calls, s.sleeps + d.sleeps⟩
      else ⟨some (t, m), s.calls, s.sleeps⟩
    | none =>
      let d := dispatchLoop net user_input rest
      ⟨d.result, s.calls + d.calls, s.sleeps + d.sleeps⟩

/-- ai.py lines 110–123: try each model of `MODELS` in order. -/
def generate_ai_response (net : String → String → Nat → CallResult)
    (user_input : String) : DispatchStats :=
  dispatchLoop net user_input MODELS

/-- The fields of the JSON body returned by the `/` endpoint that the
claims speak about, plus the HTTP status code of the response. -/
structure JsonResponse where
  answer : String
  status : String
  httpCode : Nat
  model : Option String
deriving DecidableEq

/-- The endpoint's response together with the provider-call statistics
incurred while producing it. -/
structure HomeResult where
  response : JsonResponse
  calls : Nat
  sleeps : Nat
deriving DecidableEq

/-- ai.py line 132: the fixed greeting for empty input. -/
def GREETING : String :=
  "Hello! I\x27m powered by real AI models (Mistral-7B, Llama-2, etc.). How can I assist you today?"

/-- ai.py line 150: the fixed message when every model fails. -/
def TROUBLE : String :=
  "I\x27m having trouble connecting to the AI models. Please try again in a moment."

/-- ai.py lines 125–153, the `/` endpoint: strip the `ask` parameter;
empty input gets the greeting with status `"ready"` (HTTP 200) and no
model call; otherwise dispatch, answering with status `"success"` on a
truthy answer and the fixed error body with HTTP 503 otherwise. -/
def home (net : String → String → Nat → CallResult) (ask : String) : HomeResult :=
  let user_input := pyStrip ask
  if user_input = "" then
    ⟨⟨GREETING, "ready", 200, none⟩, 0, 0⟩
  else
    let d := generate_ai_response net user_input
    match d.result with
    | some (t, m) => ⟨⟨t, "success", 200, some m⟩, d.calls, d.sleeps⟩
    | none => ⟨⟨TROUBLE, "error", 503, none⟩, d.calls, d.sleeps⟩

/-- The spec's `promptStyle` enumeration (§3, §4.1). -/
inductive PromptStyle where
  | INSTRUCTION_BRACKET
  | TURN_MARKER
  | PLAIN
deriving DecidableEq

/-- The prompt style ai.py selects for a model name (lines 62–66). -/
def styleOf (model_name : String) : PromptStyle :=
  if nameHas "mistral" model_name || nameHas "llama" model_name then .INSTRUCTION_BRACKET
  else if nameHas "gemma" model_name then .TURN_MARKER
  else .PLAIN

/-- Modelled from the spec (§4.1): the abstract prompt formatter as a pure
function of the raw text and the prompt style, used to state that ai.py's
formatter refines it. -/
def format_styled (t : String) : PromptStyle → String
  | .INSTRUCTION_BRACKET => "<s>[INST] " ++ t ++ " [/INST]"
  | .TURN_MARKER => "<start_of_turn>user\n" ++ t ++ "<end_of_turn>\n<start_of_turn>model\n"
  | .PLAIN => "User: " ++ t ++ "\nAssistant:"

/-- A string has no leading and no trailing whitespace character. -/
def noEdgeWS (s : String) : Prop :=
  (∀ c, s.toList.head? = some c → c.isWhitespace = false) ∧
  (∀ c, s.toList.getLast? = some c → c.isWhitespace = false)


/-! ### Concrete oracles used by counterexamples and witnesses -/

/-- Every request answers HTTP 500 with a non-list body. -/
def netAllFail : String → String → Nat → CallResult := fun _ _ _ => .http 500 none

/-- Attempts 0 and 1 answer 503 (model loading); attempt 2 would succeed. -/
def netLoadTwice : String → String → Nat → CallResult := fun _ _ i =>
  if i < 2 then .http 503 none else .http 200 (some [some "ok"])

/-- Attempt 0 raises an exception; every later attempt succeeds. -/
def netExnThenOk : String → String → Nat → CallResult := fun _ _ i =>
  if i = 0 then .exn else .http 200 (some [some "hi"])

/-- The first configured model answers a well-formed 200 whose generated
text is empty; the second answers "42"; the others answer 500. -/
def netEmptyThen42 : String → String → Nat → CallResult := fun m _ _ =>
  if m = "mistralai/Mistral-7B-Instruct-v0.2" then .http 200 (some [some ""])
  else if m = "meta-llama/Llama-2-7b-chat-hf" then .http 200 (some [some "42"])
  else .http 500 none

/-- Every request immediately succeeds with text "ok". -/
def netOk : String → String → Nat → CallResult := fun _ _ _ => .http 200 (some [some "ok"])

/-- Model "a" succeeds with text that cleans to the empty string; model
"b" succeeds with "42"; everything else errors. -/
def netEmptyA42B : String → String → Nat → CallResult := fun m _ _ =>
  if m = "a" then .http 200 (some [some " <s> "])
  else if m = "b" then .http 200 (some [some "42"])
  else .http 500 none

/-- Every request succeeds with whitespace-padded text. -/
def netPadded : String → String → Nat → CallResult := fun _ _ _ =>
  .http 200 (some [some "  hi  "])

/-! ### Helper lemmas: case unfoldings -/

lemma runAttempts_succ_success (script : Nat → CallResult) (i n : Nat) (t : String)
    (hc : classifyAttempt (script i) = .success t) :
    runAttempts script i (n + 1) = ⟨some t, 1, 0⟩ := by
  simp only [runAttempts]
  rw [hc]

lemma runAttempts_succ_transient (script : Nat → CallResult) (i n : Nat)
    (hc : classifyAttempt (script i) = .transient) :
    runAttempts script i (n + 1) =
      ⟨(runAttempts script (i + 1) n).result,
       (runAttempts script (i + 1) n).calls + 1,
       (runAttempts script (i + 1) n).sleeps + 1⟩ := by
  simp only [runAttempts]
  rw [hc]

lemma runAttempts_succ_hard (script : Nat → CallResult) (i n : Nat)
    (hc : classifyAttempt (script i) = .hard) :
    runAttempts script i (n + 1) =
      ⟨(runAttempts script (i + 1) n).result,
       (runAttempts script (i + 1) n).calls + 1,
       (runAttempts script (i + 1) n).sleeps⟩ := by
  simp only [runAttempts]
  rw [hc]

lemma dispatchLoop_cons_none (net : String → String → Nat → CallResult)
    (q m0 : String) (rest : List String)
    (hs : (query_model net q m0 2).result = none) :
    dispatchLoop net q (m0 :: rest) =
      ⟨(dispatchLoop net q rest).result,
       (query_model net q m0 2).calls + (dispatchLoop net q rest).calls,
       (query_model net q m0 2).sleeps + (dispatchLoop net q rest).sleeps⟩ := by
  simp only [dispatchLoop]
  rw [hs]

lemma dispatchLoop_cons_empty (net : String → String → Nat → CallResult)
    (q m0 : String) (rest : List String)
    (hs : (query_model net q m0 2).result = some "") :
    dispatchLoop net q (m0 :: rest) =
      ⟨(dispatchLoop net q rest).result,
       (query_model net q m0 2).calls + (dispatchLoop net q rest).calls,
       (query_model net q m0 2).sleeps + (dispatchLoop net q rest).sleeps⟩ := by
  simp only [dispatchLoop]
  rw [hs]
  simp

lemma dispatchLoop_cons_success (net : String → String → Nat → CallResult)
    (q m0 : String) (rest : List String) (t : String)
    (hs : (query_model net q m0 2).result = some t) (ht : t ≠ "") :
    dispatchLoop net q (m0 :: rest) =
      ⟨some (t, m0), (query_model net q m0 2).calls, (query_model net q m0 2).sleeps⟩ := by
  simp only [dispatchLoop]
  rw [hs]
  simp only [if_neg ht]

lemma home_empty_case (net : String → String → Nat → CallResult) (ask : String)
    (h : pyStrip ask = "") :
    home net ask = ⟨⟨GREETING, "ready", 200, none⟩, 0, 0⟩ := by
  simp only [home]
  rw [if_pos h]

lemma home_error_case (net : String → String → Nat → CallResult) (ask : String)
    (h1 : pyStrip ask ≠ "")
    (h2 : (generate_ai_response net (pyStrip ask)).result = none) :
    home net ask =
      ⟨⟨TROUBLE, "error", 503, none⟩,
       (generate_ai_response net (pyStrip ask)).calls,
       (generate_ai_response net (pyStrip ask)).sleeps⟩ := by
  simp only [home]
  rw [if_neg h1, h2]

lemma home_success_case (net : String → String → Nat → CallResult) (ask : String)
    (t m : String) (h1 : pyStrip ask ≠ "")
    (h2 : (generate_ai_response net (pyStrip ask)).result = some (t, m)) :
    home net ask =
      ⟨⟨t, "success", 200, some m⟩,
       (generate_ai_response net (pyStrip ask)).calls,
       (generate_ai_response net (pyStrip ask)).sleeps⟩ := by
  simp only [home]
  rw [if_neg h1, h2]

/-! ### Helper lemmas: structural facts -/

lemma head?_dropWhile_false (p : Char → Bool) :
    ∀ xs : List Char, ∀ c, (xs.dropWhile p).head? = some c → p c = false := by
  intro xs
  induction xs with
  | nil => intro c h; simp at h
  | cons x xs ih =>
    intro c h
    rw [List.dropWhile_cons] at h
    by_cases hx : p x = true
    · rw [if_pos hx] at h
      exact ih c h
    · rw [if_neg hx] at h
      simp only [List.head?_cons, Option.some.injEq] at h
      subst h
      simpa using hx

lemma getLast?_cons_of_ne_nil (x : Char) (xs : List Char) (h : xs ≠ []) :
    (x :: xs).getLast? = xs.getLast? := by
  cases xs with
  | nil => exact absurd rfl h
  | cons y ys => exact List.getLast?_cons_cons

lemma getLast?_dropWhile_eq (p : Char → Bool) :
    ∀ xs : List Char, xs.dropWhile p ≠ [] → (xs.dropWhile p).getLast? = xs.getLast? := by
  intro xs
  induction xs with
  | nil => intro h; exact absurd rfl h
  | cons x xs ih =>
    rw [List.dropWhile_cons]
    by_cases hx : p x = true
    · rw [if_pos hx]
      intro hne
      have hxs : xs ≠ [] := by
        intro h0
        subst h0
        simp at hne
      rw [ih hne, getLast?_cons_of_ne_nil x xs hxs]
    · rw [if_neg hx]
      intro _
      rfl

lemma trimChars_head (xs : List Char) :
    ∀ c, (trimChars xs).head? = some c → c.isWhitespace = false := by
  intro c h
  unfold trimChars at h
  rw [List.head?_reverse] at h
  by_cases hz :
      ((xs.dropWhile Char.isWhitespace).reverse.dropWhile Char.isWhitespace) = []
  · rw [hz] at h
    simp at h
  · rw [getLast?_dropWhile_eq _ _ hz, List.getLast?_reverse] at h
    exact head?_dropWhile_false _ _ c h

lemma trimChars_getLast (xs : List Char) :
    ∀ c, (trimChars xs).getLast? = some c → c.isWhitespace = false := by
  intro c h
  unfold trimChars at h
  rw [List.getLast?_reverse] at h
  exact head?_dropWhile_false _ _ c h

lemma noEdgeWS_pyStrip (s : String) : noEdgeWS (pyStrip s) :=
  ⟨fun c h => trimChars_head s.toList c h, fun c h => trimChars_getLast s.toList c h⟩

lemma noEdgeWS_cleanText (s : String) : noEdgeWS (cleanText s) :=
  noEdgeWS_pyStrip _

lemma classify_success_clean (r : CallResult) (t : String)
    (h : classifyAttempt r = .success t) : ∃ raw, t = cleanText raw := by
  cases r with
  | exn => simp [classifyAttempt] at h
  | http status body =>
    simp only [classifyAttempt] at h
    by_cases h200 : status = 200
    · rw [if_pos h200] at h
      cases body with
      | none => simp at h
      | some l =>
        cases l with
        | nil => simp at h
        | cons item rest =>
          simp only [AttemptOutcome.success.injEq] at h
          exact ⟨item.getD "", h.symm⟩
    · rw [if_neg h200] at h
      by_cases h503 : status = 503
      · rw [if_pos h503] at h
        simp at h
      · rw [if_neg h503] at h
        simp at h

lemma runAttempts_result_clean (script : Nat → CallResult) :
    ∀ n i t, (runAttempts script i n).result = some t → ∃ raw, t = cleanText raw := by
  intro n
  induction n with
  | zero => intro i t h; simp [runAttempts] at h
  | succ n ih =>
    intro i t h
    cases hc : classifyAttempt (script i) with
    | success t0 =>
      rw [runAttempts_succ_success script i n t0 hc] at h
      simp only [Option.some.injEq] at h
      subst h
      exact classify_success_clean _ _ hc
    | transient =>
      rw [runAttempts_succ_transient script i n hc] at h
      exact ih (i + 1) t h
    | hard =>
      rw [runAttempts_succ_hard script i n hc] at h
      exact ih (i + 1) t h

lemma runAttempts_le (script : Nat → CallResult) :
    ∀ n i, (runAttempts script i n).calls ≤ n ∧ (runAttempts script i n).sleeps ≤ n := by
  intro n
  induction n with
  | zero => intro i; exact ⟨Nat.le_refl 0, Nat.le_refl 0⟩
  | succ n ih =>
    intro i
    cases hc : classifyAttempt (script i) with
    | success t0 =>
      rw [runAttempts_succ_success script i n t0 hc]
      exact ⟨Nat.succ_le_succ (Nat.zero_le n), Nat.zero_le (n + 1)⟩
    | transient =>
      rw [runAttempts_succ_transient script i n hc]
      exact ⟨Nat.succ_le_succ (ih (i + 1)).1, Nat.succ_le_succ (ih (i + 1)).2⟩
    | hard =>
      rw [runAttempts_succ_hard script i n hc]
      exact ⟨Nat.succ_le_succ (ih (i + 1)).1, Nat.le_succ_of_le (ih (i + 1)).2⟩

lemma runAttempts_result_none (script : Nat → CallResult)
    (hf : ∀ j t, classifyAttempt (script j) ≠ .success t) :
    ∀ n i, (runAttempts script i n).result = none := by
  intro n
  induction n with
  | zero => intro i; rfl
  | succ n ih =>
    intro i
    cases hc : classifyAttempt (script i) with
    | success t0 => exact absurd hc (hf i t0)
    | transient => rw [runAttempts_succ_transient script i n hc]; exact ih (i + 1)
    | hard => rw [runAttempts_succ_hard script i n hc]; exact ih (i + 1)

lemma runAttempts_hard_chain (script : Nat → CallResult) :
    ∀ n i t, (∀ j, j < n → classifyAttempt (script (i + j)) = .hard) →
      classifyAttempt (script (i + n)) = .success t →
      runAttempts script i (n + 1) = ⟨some t, n + 1, 0⟩ := by
  intro n
  induction n with
  | zero =>
    intro i t _ hs
    rw [Nat.add_zero] at hs
    exact runAttempts_succ_success script i 0 t hs
  | succ n ih =>
    intro i t hh hs
    have h0 : classifyAttempt (script i) = .hard := by
      have h := hh 0 (Nat.succ_pos n)
      rwa [Nat.add_zero] at h
    have hrec : runAttempts script (i + 1) (n + 1) = ⟨some t, n + 1, 0⟩ := by
      refine ih (i + 1) t (fun j hj => ?_) ?_
      · have h := hh (j + 1) (Nat.succ_lt_succ hj)
        rwa [show i + (j + 1) = i + 1 + j by omega] at h
      · rwa [show i + (n + 1) = i + 1 + n by omega] at hs
    rw [runAttempts_succ_hard script i (n + 1) h0, hrec]

lemma runAttempts_transient_chain (script : Nat → CallResult) :
    ∀ n i t, (∀ j, j < n → classifyAttempt (script (i + j)) = .transient) →
      classifyAttempt (script (i + n)) = .success t →
      runAttempts script i (n + 1) = ⟨some t, n + 1, n⟩ := by
  intro n
  induction n with
  | zero =>
    intro i t _ hs
    rw [Nat.add_zero] at hs
    exact runAttempts_succ_success script i 0 t hs
  | succ n ih =>
    intro i t hh hs
    have h0 : classifyAttempt (script i) = .transient := by
      have h := hh 0 (Nat.succ_pos n)
      rwa [Nat.add_zero] at h
    have hrec : runAttempts script (i + 1) (n + 1) = ⟨some t, n + 1, n⟩ := by
      refine ih (i + 1) t (fun j hj => ?_) ?_
      · have h := hh (j + 1) (Nat.succ_lt_succ hj)
        rwa [show i + (j + 1) = i + 1 + j by omega] at h
      · rwa [show i + (n + 1) = i + 1 + n by omega] at hs
    rw [runAttempts_succ_transient script i (n + 1) h0, hrec]

lemma dispatch_result_nonempty (net : String → String → Nat → CallResult) (q : String) :
    ∀ ms t m, (dispatchLoop net q ms).result = some (t, m) → t ≠ "" := by
  intro ms
  induction ms with
  | nil => intro t m h; simp [dispatchLoop] at h
  | cons m0 rest ih =>
    intro t m h
    cases hs : (query_model net q m0 2).result with
    | none =>
      rw [dispatchLoop_cons_none net q m0 rest hs] at h
      exact ih t m h
    | some t0 =>
      by_cases ht0 : t0 = ""
      · subst ht0
        rw [dispatchLoop_cons_empty net q m0 rest hs] at h
        exact ih t m h
      · rw [dispatchLoop_cons_success net q m0 rest t0 hs ht0] at h
        simp only [Option.some.injEq, Prod.mk.injEq] at h
        rw [← h.1]
        exact ht0

lemma dispatch_result_none (net : String → String → Nat → CallResult) (q : String)
    (hf : ∀ m fp j t, classifyAttempt (net m fp j) ≠ .success t) :
    ∀ ms, (dispatchLoop net q ms).result = none := by
  intro ms
  induction ms with
  | nil => rfl
  | cons m0 rest ih =>
    have hq : (query_model net q m0 2).result = none :=
      runAttempts_result_none _ (fun j t => hf m0 _ j t) 2 0
    rw [dispatchLoop_cons_none net q m0 rest hq]
    exact ih

lemma dispatch_le (net : String → String → Nat → CallResult) (q : String) :
    ∀ ms, (dispatchLoop net q ms).calls ≤ 2 * ms.length ∧
      (dispatchLoop net q ms).sleeps ≤ 2 * ms.length := by
  intro ms
  induction ms with
  | nil => exact ⟨Nat.le_refl 0, Nat.le_refl 0⟩
  | cons m0 rest ih =>
    have hq : (query_model net q m0 2).calls ≤ 2 ∧ (query_model net q m0 2).sleeps ≤ 2 :=
      runAttempts_le (net m0 (format_prompt q m0)) 2 0
    have harith : ∀ a b : Nat, a ≤ 2 → b ≤ 2 * rest.length →
        a + b ≤ 2 * (m0 :: rest).length := by
      intro a b ha hb
      simp only [List.length_cons]
      omega
    cases hs : (query_model net q m0 2).result with
    | none =>
      rw [dispatchLoop_cons_none net q m0 rest hs]
      exact ⟨harith _ _ hq.1 ih.1, harith _ _ hq.2 ih.2⟩
    | some t0 =>
      by_cases ht0 : t0 = ""
      · subst ht0
        rw [dispatchLoop_cons_empty net q m0 rest hs]
        exact ⟨harith _ _ hq.1 ih.1, harith _ _ hq.2 ih.2⟩
      · rw [dispatchLoop_cons_success net q m0 rest t0 hs ht0]
        simp only [List.length_cons]
        exact ⟨by omega, by omega⟩

/-! ### Claim theorems -/

/-- C1, counterexample: when every provider call fails (HTTP 500 here),
the `/` endpoint surfaces an error — status `"error"`, HTTP 503, a fixed
trouble message — and `generate_ai_response` returns no answer; nothing
is drawn from any last-resort candidate set. -/
theorem c1_counterexample :
    (home netAllFail "hello").response.status = "error" ∧
    (home netAllFail "hello").response.httpCode = 503 ∧
    (home netAllFail "hello").response.answer = TROUBLE ∧
    (generate_ai_response netAllFail "hello").result = none := by
  decide

/-- C1, amended: if every attempt of every provider is non-successful,
`generate_ai_response` returns `None` (null provider id), and the `/`
endpoint answers the fixed trouble message with status `"error"` and
HTTP 503: total remote failure IS surfaced as an error to the caller,
and there is no last-resort responder. -/
theorem c1_total_failure_surfaces_error
    (net : String → String → Nat → CallResult) (q : String)
    (hq : pyStrip q ≠ "")
    (hfail : ∀ m fp j t, classifyAttempt (net m fp j) ≠ AttemptOutcome.success t) :
    (generate_ai_response net (pyStrip q)).result = none ∧
    (home net q).response = ⟨TROUBLE, "error", 503, none⟩ := by
  have hnone : (generate_ai_response net (pyStrip q)).result = none :=
    dispatch_result_none net (pyStrip q) hfail MODELS
  refine ⟨hnone, ?_⟩
  rw [home_error_case net q hq hnone]

/-- C1, witness for the amended theorem at a concrete failing oracle. -/
theorem c1_total_failure_surfaces_error_witness :
    (generate_ai_response netAllFail (pyStrip "hello")).result = none ∧
    (home netAllFail "hello").response = ⟨TROUBLE, "error", 503, none⟩ :=
  c1_total_failure_surfaces_error netAllFail "hello" (by decide)
    (fun m fp j t h => by simp [netAllFail, classifyAttempt] at h)

/-- C2, counterexample: with the default budget 2 and an executor that
yields a transient 503 on attempts 0 and 1 and would succeed on attempt
2, `query_model` returns `None` after exactly 2 invocations — the third
invocation promised by the claim never happens. -/
theorem c2_counterexample :
    (query_model netLoadTwice "q" "m" 2).result = none ∧
    (query_model netLoadTwice "q" "m" 2).calls = 2 ∧
    classifyAttempt (netLoadTwice "m" (format_prompt "q" "m") 2) = .success "ok" := by
  decide

/-- C2, amended: `query_model` invokes the underlying call at most
`max_retries` times in total (`for attempt in range(max_retries)`), not
`max_retries + 1`; with budget 2 and transient failures on attempts 0
and 1 it returns `None` after exactly 2 invocations. -/
theorem c2_retry_budget (net : String → String → Nat → CallResult) (q m : String)
    (h0 : classifyAttempt (net m (format_prompt q m) 0) = .transient)
    (h1 : classifyAttempt (net m (format_prompt q m) 1) = .transient) :
    (∀ k, (query_model net q m k).calls ≤ k) ∧
    (query_model net q m 2).result = none ∧
    (query_model net q m 2).calls = 2 := by
  have e1 := runAttempts_succ_transient (net m (format_prompt q m)) 0 1 h0
  have e2 := runAttempts_succ_transient (net m (format_prompt q m)) 1 0 h1
  refine ⟨fun k => (runAttempts_le _ k 0).1, ?_, ?_⟩
  · unfold query_model
    rw [e1, e2]
    rfl
  · unfold query_model
    rw [e1, e2]
    rfl

/-- C2, witness for the amended theorem at a concrete transient oracle. -/
theorem c2_retry_budget_witness :
    (query_model netLoadTwice "q" "m" 2).calls ≤ 2 ∧
    (query_model netLoadTwice "q" "m" 2).result = none ∧
    (query_model netLoadTwice "q" "m" 2).calls = 2 :=
  ⟨(c2_retry_budget netLoadTwice "q" "m" (by decide) (by decide)).1 2,
   (c2_retry_budget netLoadTwice "q" "m" (by decide) (by decide)).2.1,
   (c2_retry_budget netLoadTwice "q" "m" (by decide) (by decide)).2.2⟩

/-- C3, counterexample: an exception (hard failure / timeout) on attempt
0 does NOT make `query_model` return immediately — the loop retries and
returns the attempt-1 success after 2 invocations. -/
theorem c3_counterexample :
    classifyAttempt (netExnThenOk "m" (format_prompt "q" "m") 0) = .hard ∧
    (query_model netExnThenOk "q" "m" 2).result = some "hi" ∧
    (query_model netExnThenOk "q" "m" 2).calls = 2 := by
  decide

/-- C3, amended: every non-success outcome is retried until the attempt
budget is exhausted; hard failures (non-503 statuses, malformed
payloads, exceptions — including timeouts) retry with no backoff, and
only 503 incurs the fixed `time.sleep(2)` backoff, one per 503. -/
theorem c3_nonsuccess_always_retried
    (net : String → String → Nat → CallResult) (q m : String) (n : Nat) (t : String)
    (hs : classifyAttempt (net m (format_prompt q m) n) = .success t) :
    ((∀ j, j < n → classifyAttempt (net m (format_prompt q m) j) = .hard) →
      query_model net q m (n + 1) = ⟨some t, n + 1, 0⟩) ∧
    ((∀ j, j < n → classifyAttempt (net m (format_prompt q m) j) = .transient) →
      query_model net q m (n + 1) = ⟨some t, n + 1, n⟩) := by
  constructor
  · intro hh
    unfold query_model
    exact runAttempts_hard_chain _ n 0 t
      (fun j hj => by simpa using hh j hj) (by simpa using hs)
  · intro hh
    unfold query_model
    exact runAttempts_transient_chain _ n 0 t
      (fun j hj => by simpa using hh j hj) (by simpa using hs)

/-- C3, witness for the amended theorem: one hard failure then success. -/
theorem c3_nonsuccess_always_retried_witness :
    query_model netExnThenOk "q" "m" 2 = ⟨some "hi", 2, 0⟩ :=
  (c3_nonsuccess_always_retried netExnThenOk "q" "m" 1 "hi" (by decide)).1
    (fun j hj => by
      have hj0 : j = 0 := Nat.lt_one_iff.mp hj
      subst hj0
      decide)

/-- C4: one attempt is classified as `success` exactly on a 200 status
with a non-empty JSON list payload (carrying the cleaned generated
text), as `transient` on 503 (model loading), and as `hard` on a 200
with a malformed payload, on any other status, and on any raised
exception (network-level connection errors included). -/
theorem c4_outcome_classification (status : Nat) (body : Option (List (Option String))) :
    (status = 200 → ∀ item rest, body = some (item :: rest) →
      classifyAttempt (.http status body) = .success (cleanText (item.getD ""))) ∧
    (status = 200 → body = none ∨ body = some [] →
      classifyAttempt (.http status body) = .hard) ∧
    (status = 503 → classifyAttempt (.http status body) = .transient) ∧
    (status ≠ 200 → status ≠ 503 → classifyAttempt (.http status body) = .hard) ∧
    classifyAttempt .exn = .hard := by
  refine ⟨?_, ?_, ?_, ?_, rfl⟩
  · intro h200 item rest hb
    subst h200
    subst hb
    simp [classifyAttempt]
  · intro h200 hb
    subst h200
    rcases hb with hb | hb <;> subst hb <;> simp [classifyAttempt]
  · intro h503
    subst h503
    simp [classifyAttempt]
  · intro h200 h503
    simp only [classifyAttempt]
    rw [if_neg h200, if_neg h503]

/-- C4, witness: the classification evaluated at concrete responses. -/
theorem c4_outcome_classification_witness :
    classifyAttempt (.http 200 (some [some " hi "])) = .success (cleanText " hi ") ∧
    classifyAttempt (.http 503 none) = .transient ∧
    classifyAttempt (.http 404 none) = .hard ∧
    classifyAttempt .exn = .hard :=
  ⟨(c4_outcome_classification 200 (some [some " hi "])).1 rfl (some " hi ") [] rfl,
   (c4_outcome_classification 503 none).2.2.1 rfl,
   (c4_outcome_classification 404 none).2.2.2.1 (by decide) (by decide),
   (c4_outcome_classification 200 none).2.2.2.2⟩

/-- C5, counterexample: the first configured model returns a `success`
outcome (with empty cleaned text), yet `generate_ai_response` does not
stop there: it invokes the second model (2 calls in total) and returns
the answer and id of the second model. -/
theorem c5_counterexample :
    classifyAttempt (netEmptyThen42 "mistralai/Mistral-7B-Instruct-v0.2"
      (format_prompt "x" "mistralai/Mistral-7B-Instruct-v0.2") 0) = .success "" ∧
    (generate_ai_response netEmptyThen42 "x").result =
      some ("42", "meta-llama/Llama-2-7b-chat-hf") ∧
    (generate_ai_response netEmptyThen42 "x").calls = 2 := by
  decide

/-- C5, amended: providers are attempted strictly in list order, and the
dispatcher stops at the first success whose text is non-empty: it then
returns that text with that provider id, invokes no later provider, and
when the first attempt of that provider already succeeded the total call
count is 1.  (A success with empty text is skipped like a failure.) -/
theorem c5_first_nonempty_success
    (net : String → String → Nat → CallResult) (q m0 : String)
    (rest : List String) (t : String)
    (h : (query_model net q m0 2).result = some t) (hne : t ≠ "") :
    dispatchLoop net q (m0 :: rest) =
      ⟨some (t, m0), (query_model net q m0 2).calls, (query_model net q m0 2).sleeps⟩ ∧
    (classifyAttempt (net m0 (format_prompt q m0) 0) = .success t →
      (dispatchLoop net q (m0 :: rest)).calls = 1) := by
  have hmain := dispatchLoop_cons_success net q m0 rest t h hne
  refine ⟨hmain, fun h0 => ?_⟩
  rw [hmain]
  show (query_model net q m0 2).calls = 1
  unfold query_model
  rw [runAttempts_succ_success _ 0 1 t h0]

/-- C5, witness for the amended theorem at an always-succeeding oracle. -/
theorem c5_first_nonempty_success_witness :
    dispatchLoop netOk "x" ["m0", "m1"] =
      ⟨some ("ok", "m0"), (query_model netOk "x" "m0" 2).calls,
       (query_model netOk "x" "m0" 2).sleeps⟩ ∧
    (dispatchLoop netOk "x" ["m0", "m1"]).calls = 1 :=
  ⟨(c5_first_nonempty_success netOk "x" "m0" ["m1"] "ok" (by decide) (by decide)).1,
   (c5_first_nonempty_success netOk "x" "m0" ["m1"] "ok" (by decide) (by decide)).2
     (by decide)⟩

/-- C6: for every oracle, query and provider list, the dispatch loop
terminates with one result whose total blocking time (30000 ms per HTTP
call with `timeout=30`, 2000 ms per `time.sleep(2)` backoff) is at most
the number of providers times `(maxRetries + 1) x callTimeout` plus the
fixed backoff delays (at most `maxRetries` per provider); and the `/`
endpoint always produces a response with a non-empty answer. -/
theorem c6_bounded_dispatch :
    (∀ (net : String → String → Nat → CallResult) (q : String) (ms : List String),
      (dispatchLoop net q ms).calls * 30000 + (dispatchLoop net q ms).sleeps * 2000 ≤
        ms.length * ((2 + 1) * 30000 + 2 * 2000)) ∧
    (∀ (net : String → String → Nat → CallResult) (ask : String),
      (home net ask).response.answer ≠ "") := by
  constructor
  · intro net q ms
    have h := dispatch_le net q ms
    have hc := h.1
    have hs := h.2
    omega
  · intro net ask
    by_cases hq : pyStrip ask = ""
    · rw [home_empty_case net ask hq]
      decide
    · cases hr : (generate_ai_response net (pyStrip ask)).result with
      | none =>
        rw [home_error_case net ask hq hr]
        show TROUBLE ≠ ""
        decide
      | some p =>
        obtain ⟨t, m⟩ := p
        rw [home_success_case net ask t m hq hr]
        show t ≠ ""
        exact dispatch_result_nonempty net (pyStrip ask) MODELS t m hr

/-- C6, witness: the bound and the non-empty answer evaluated at a
concrete oracle and the configured model list. -/
theorem c6_bounded_dispatch_witness :
    (dispatchLoop netAllFail "x" MODELS).calls * 30000 +
      (dispatchLoop netAllFail "x" MODELS).sleeps * 2000 ≤
      MODELS.length * ((2 + 1) * 30000 + 2 * 2000) ∧
    (home netAllFail "x").response.answer ≠ "" :=
  ⟨c6_bounded_dispatch.1 netAllFail "x" MODELS, c6_bounded_dispatch.2 netAllFail "x"⟩

/-- C7: the prompt formatter is a pure total function of the raw text
and the prompt style the code derives from the model name:
`INSTRUCTION_BRACKET` wraps the text in the bracketed instruction
envelope, `TURN_MARKER` wraps it in user/model turn markers, and `PLAIN`
prefixes a "User: ... Assistant:" role label; being a total Lean
function, it cannot fail at request time. -/
theorem c7_prompt_formatter (t model_name : String) :
    format_prompt t model_name = format_styled t (styleOf model_name) ∧
    format_styled t PromptStyle.INSTRUCTION_BRACKET = "<s>[INST] " ++ t ++ " [/INST]" ∧
    format_styled t PromptStyle.TURN_MARKER =
      "<start_of_turn>user\n" ++ t ++ "<end_of_turn>\n<start_of_turn>model\n" ∧
    format_styled t PromptStyle.PLAIN = "User: " ++ t ++ "\nAssistant:" := by
  refine ⟨?_, rfl, rfl, rfl⟩
  unfold format_prompt styleOf
  by_cases h1 : (nameHas "mistral" model_name || nameHas "llama" model_name) = true
  · rw [if_pos h1, if_pos h1]
    rfl
  · rw [if_neg h1, if_neg h1]
    by_cases h2 : nameHas "gemma" model_name = true
    · rw [if_pos h2, if_pos h2]
      rfl
    · rw [if_neg h2, if_neg h2]
      rfl

/-- C8: every answer the dispatcher reports as a provider success is a
non-empty string, and a provider call whose (trimmed, cleaned) text is
empty is not returned as a success — the dispatcher advances to the next
provider in the chain. -/
theorem c8_provider_success_nonempty :
    (∀ (net : String → String → Nat → CallResult) (q : String) (ms : List String)
      (t m : String), (dispatchLoop net q ms).result = some (t, m) → t ≠ "") ∧
    (∀ (net : String → String → Nat → CallResult) (q m0 : String) (rest : List String),
      (query_model net q m0 2).result = some "" →
      (dispatchLoop net q (m0 :: rest)).result = (dispatchLoop net q rest).result) := by
  constructor
  · exact fun net q ms t m h => dispatch_result_nonempty net q ms t m h
  · intro net q m0 rest h
    rw [dispatchLoop_cons_empty net q m0 rest h]

/-- C8, witness: model "a" succeeds with text cleaning to `""` and is
skipped; the dispatcher returns the non-empty answer of model "b". -/
theorem c8_provider_success_nonempty_witness :
    (dispatchLoop netEmptyA42B "q" ["a", "b"]).result =
      (dispatchLoop netEmptyA42B "q" ["b"]).result ∧
    "42" ≠ "" :=
  ⟨c8_provider_success_nonempty.2 netEmptyA42B "q" "a" ["b"] (by decide),
   c8_provider_success_nonempty.1 netEmptyA42B "q" ["b"] "42" "b" (by decide)⟩

/-- C9: an `ask` parameter that is empty after stripping makes the `/`
endpoint return the fixed greeting with status `"ready"` (HTTP 200) and
zero provider calls. -/
theorem c9_empty_query_greeting (net : String → String → Nat → CallResult)
    (ask : String) (h : pyStrip ask = "") :
    home net ask = ⟨⟨GREETING, "ready", 200, none⟩, 0, 0⟩ :=
  home_empty_case net ask h

/-- C9, witness: a whitespace-only query at a concrete oracle. -/
theorem c9_empty_query_greeting_witness :
    home netAllFail "   " = ⟨⟨GREETING, "ready", 200, none⟩, 0, 0⟩ :=
  c9_empty_query_greeting netAllFail "   " (by decide)

/-- C10, counterexample: sequential marker removal can recreate a
marker: the generated text `"<<s>s>hello"` is returned as the success
text `"<s>hello"`, which still contains the substring `"<s>"`. -/
theorem c10_counterexample :
    classifyAttempt (.http 200 (some [some "<<s>s>hello"])) = .success "<s>hello" ∧
    listContains "<s>".toList ("<s>hello").toList = true := by
  decide

/-- C10, amended: every text `query_model` returns as a success is the
result of one left-to-right removal pass per marker followed by a final
strip — hence it has no leading or trailing whitespace — but absence of
the marker substrings themselves is not guaranteed. -/
theorem c10_success_text_trimmed (net : String → String → Nat → CallResult)
    (q m : String) (n : Nat) (t : String)
    (h : (query_model net q m n).result = some t) :
    noEdgeWS t ∧ ∃ raw, t = cleanText raw := by
  obtain ⟨raw, hraw⟩ := runAttempts_result_clean _ n 0 t h
  subst hraw
  exact ⟨noEdgeWS_cleanText raw, raw, rfl⟩

/-- C10, witness: a padded generated text is returned trimmed. -/
theorem c10_success_text_trimmed_witness :
    noEdgeWS "hi" ∧ ∃ raw, "hi" = cleanText raw :=
  c10_success_text_trimmed netPadded "q" "m" 2 "hi" (by decide)

end WormAI
